import Mathlib

/-!
Verification of the battery-simulator microservice
(`BatterySimulatorController.py`) against its natural-language
specification.

The Python service is shallowly embedded below. Reals are modelled as ℚ.
The simulation engine (PyBaMM) is an opaque external collaborator and is
modelled as a function parameter `Engine`; the outbound HTTP transport
(`requests.post`) is modelled by a `Transport` parameter saying whether
the single POST raises. Observable effects of one worker run (the
parameters and duration handed to the engine, the attempted POSTs, the
mutation of `result_holder`, and the worker function return value that
Python discards because the function runs as a thread target) are
collected in a `WorkerResult` record.
-/

namespace BatterySim

/-- An inbound JSON body for `POST /simulate`: each field may be absent,
matching `data.get(...)` in the handler. -/
structure RawRequest where
  id : Option String
  time : Option ℚ
  upperVoltage : Option ℚ
  lowerVoltage : Option ℚ
  nominalCell : Option ℚ
  controlCurrent : Option ℚ
deriving Repr, DecidableEq

/-- The parameter overrides handed to the engine
(`custom_parameters.update(params)`). -/
structure SimParams where
  upperVoltageCutoff : ℚ
  lowerVoltageCutoff : ℚ
  nominalCellCapacity : ℚ
  currentFunction : ℚ
deriving Repr, DecidableEq

/-- `return_url` from line 26 of the source: the configured callback URL. -/
def return_url : String := "http://localhost:8083/updateBatteryResults"

/-- Lines 123-128: the `custom_parameters` dict built from the request,
with the source defaults 4.2, 2.5, 8.6 and 5. -/
def custom_parameters (data : RawRequest) : SimParams where
  upperVoltageCutoff := data.upperVoltage.getD 4.2
  lowerVoltageCutoff := data.lowerVoltage.getD 2.5
  nominalCellCapacity := data.nominalCell.getD 8.6
  currentFunction := data.controlCurrent.getD 5

/-- Line 87: `hours = data.get('time', 1)`. -/
def hoursOf (data : RawRequest) : ℚ := data.time.getD 1

/-- The four entry arrays read off a PyBaMM solution (lines 50-53). -/
structure Solution where
  timeS : List ℚ
  voltage : List ℚ
  current : List ℚ
  dcap : List ℚ
deriving Repr, DecidableEq

/-- The two exception classes the worker distinguishes (lines 74-77):
`pybamm.SolverError` and every other `Exception`. -/
inductive EngineError where
  | solverError (msg : String)
  | otherError (msg : String)
deriving Repr, DecidableEq

/-- One `data_point` dict of the result series (lines 58-63). -/
structure Sample where
  time : ℚ
  voltage : ℚ
  current : ℚ
  dcap : ℚ
deriving Repr, DecidableEq

instance : Inhabited Sample := ⟨⟨0, 0, 0, 0⟩⟩

/-- One outbound `requests.post(url, json=...)` with the body of
lines 67-70. -/
structure PostRequest where
  url : String
  bodyId : Option String
  bodyResult : List Sample
deriving Repr, DecidableEq

/-- The body of one loop iteration (lines 58-63): index all four arrays
at `i`; a missing index is a Python `IndexError` (an `Exception`). -/
def dataPoint (sol : Solution) (i : Nat) : Except String Sample :=
  match sol.timeS[i]?, sol.voltage[i]?, sol.current[i]?, sol.dcap[i]? with
  | some t, some v, some c, some d => Except.ok ⟨t, v, c, d⟩
  | _, _, _, _ => Except.error "list index out of range"

/-- The loop of lines 57-64 run for indices `i, i+1, ..., i+n-1`,
appending one data point per iteration; the first failing index aborts
with the exception. -/
def combineFrom (sol : Solution) : Nat → Nat → Except String (List Sample)
  | _, 0 => Except.ok []
  | i, n + 1 =>
    match dataPoint sol i with
    | Except.error e => Except.error e
    | Except.ok p =>
      match combineFrom sol (i + 1) n with
      | Except.error e => Except.error e
      | Except.ok rest => Except.ok (p :: rest)

/-- Lines 54-64: `combined_data` built by `for i in range(len(time_s))`. -/
def combineData (sol : Solution) : Except String (List Sample) :=
  combineFrom sol 0 sol.timeS.length

/-- Whether the single `requests.post` call of lines 67-70 returns or
raises a transport exception. -/
inductive Transport where
  | ok
  | fail (msg : String)
deriving Repr, DecidableEq

/-- The opaque simulation engine: `safe_sim.solve([0, seconds])` given the
parameter overrides and the upper bound `seconds`; it returns a solution or
raises. -/
abbrev Engine := SimParams → ℚ → Except EngineError Solution

/-- Observable outcome of one `simulate_battery` run:
`solveParams`/`solveArg` record the single engine invocation's arguments,
`posts` the attempted outbound POSTs, `resultHolder` the final value of
`result_holder` at key `result`, and `retval` the dict the Python function
returns on a caught exception (discarded by the caller, since the function
runs as a thread target). -/
structure WorkerResult where
  solveParams : SimParams
  solveArg : ℚ
  posts : List PostRequest
  resultHolder : Option (List Sample)
  retval : Option String
deriving Repr, DecidableEq

/-- The message built at line 75 for a caught `pybamm.SolverError`. -/
def solverErrorMessage (msg : String) : String :=
  "SolverError:\nVoltage cut-off values should be relative to 2.5V and 4.2V: " ++ msg

/-- Lines 30-77, `simulate_battery`: convert hours to seconds, solve,
build `combined_data`, POST it to `return_url`, store it in
`result_holder`; any `pybamm.SolverError` or other `Exception` raised
anywhere in the body is caught and turned into an error dict that is
returned (and, being a thread target return value, discarded). -/
def simulate_battery (engine : Engine) (transport : Transport)
    (params : SimParams) (hours : ℚ) (id : Option String) : WorkerResult :=
  let seconds := hours * 60 * 60
  match engine params seconds with
  | Except.error (EngineError.solverError msg) =>
    ⟨params, seconds, [], none, some (solverErrorMessage msg)⟩
  | Except.error (EngineError.otherError msg) =>
    ⟨params, seconds, [], none, some ("Error: " ++ msg)⟩
  | Except.ok sol =>
    match combineData sol with
    | Except.error msg => ⟨params, seconds, [], none, some ("Error: " ++ msg)⟩
    | Except.ok combined =>
      match transport with
      | Transport.ok =>
        ⟨params, seconds, [⟨return_url, id, combined⟩], some combined, none⟩
      | Transport.fail msg =>
        ⟨params, seconds, [⟨return_url, id, combined⟩], none,
          some ("Error: " ++ msg)⟩

/-- A JSON response of the `/simulate` handler: either
`jobStarted`/`simulationResults` (line 143) or `error` (line 146). -/
inductive Response where
  | result (jobStarted : Bool) (simulationResults : Option (List Sample))
  | error (msg : String)
deriving Repr, DecidableEq

/-- Line 135: the worker run the handler dispatches (and, via
`thread.join()` at line 137, waits for): `simulate_battery` applied to the
request's parameters, hours and id. -/
def handlerWorker (engine : Engine) (transport : Transport)
    (data : RawRequest) : WorkerResult :=
  simulate_battery engine transport (custom_parameters data) (hoursOf data)
    data.id

/-- Lines 80-146, the `/simulate` handler: read the body (which may
raise), run the worker to completion (start + join), then answer with
`jobStarted: True` and the contents of `result_holder`; any exception in
the handler body is caught and answered as an error JSON. -/
def simulate (engine : Engine) (transport : Transport)
    (rawBody : Except String RawRequest) : Response :=
  match rawBody with
  | Except.error e => Response.error e
  | Except.ok data =>
    Response.result true (handlerWorker engine transport data).resultHolder

/-! ### Concrete fixtures used by witnesses and counterexamples -/

/-- A request body with every optional field absent. -/
def rEmpty : RawRequest := ⟨none, none, none, none, none, none⟩

/-- A request body with every field present. -/
def rFull : RawRequest := ⟨some "J2", some 2, some 4, some 3, some 9, some 2⟩

/-- The spec §8 scenario request: `upperVoltage: 2.0, lowerVoltage: 4.2`. -/
def rInverted : RawRequest := ⟨some "J1", none, some 2, some 4.2, none, none⟩

/-- An engine that always succeeds with a one-step solution. -/
def engOne : Engine := fun _ _ => Except.ok ⟨[0], [4], [5], [0]⟩

/-- An engine that always raises a solver convergence failure. -/
def engSolverFail : Engine :=
  fun _ _ => Except.error (EngineError.solverError "convergence failed")

/-- An engine that echoes the parameters it is invoked with into its
one-step solution: seeing them in a response proves the engine was invoked
with exactly those parameters. -/
def engEcho : Engine := fun params _ =>
  Except.ok ⟨[params.upperVoltageCutoff], [params.lowerVoltageCutoff],
    [params.nominalCellCapacity], [params.currentFunction]⟩

/-! ### Helper lemmas -/

/-- Every branch of `simulate_battery` records the single engine call made
with `hours * 60 * 60` seconds (line 46-47). -/
theorem simulate_battery_solveArg (e : Engine) (t : Transport)
    (params : SimParams) (hours : ℚ) (id : Option String) :
    (simulate_battery e t params hours id).solveArg = hours * 60 * 60 := by
  simp only [simulate_battery]
  split
  · rfl
  · rfl
  · split
    · rfl
    · split <;> rfl

/-- A worker run either returns no error dict or leaves `result_holder`
unset: the success write at line 72 is the last statement of the `try`. -/
theorem simulate_battery_retval_or (e : Engine) (t : Transport)
    (params : SimParams) (hours : ℚ) (id : Option String) :
    (simulate_battery e t params hours id).retval = none ∨
    (simulate_battery e t params hours id).resultHolder = none := by
  simp only [simulate_battery]
  split
  · exact Or.inr rfl
  · exact Or.inr rfl
  · split
    · exact Or.inr rfl
    · split
      · exact Or.inl rfl
      · exact Or.inr rfl

/-! ### Claims -/

/-- C1: the claim says the submit path returns immediately without waiting
for the engine. The code starts the worker thread and immediately joins it
(lines 136-137), so the synchronous response is a function of the finished
engine call: with a succeeding engine the response already embeds the
complete simulation results, and with a failing engine it differs. The
accepting path therefore blocks on the engine; this theorem evaluates the
handler at the failing input. -/
theorem c1_response_waits_for_engine :
    simulate engOne Transport.ok (Except.ok rEmpty)
      = Response.result true (some [⟨0, 4, 5, 0⟩]) ∧
    simulate engSolverFail Transport.ok (Except.ok rEmpty)
      = Response.result true none := by
  constructor <;> rfl

/-- C3: the claim says a recognized solver failure is still reported to the
job manager via the Callback Dispatcher. The code catches the solver error
and returns an error dict from the thread target (line 75), which Python
discards; no POST is made and the synchronous response carries no error:
the failure is never reported. This theorem evaluates the code at a request
whose solve raises a solver convergence failure. -/
theorem c3_solver_failure_not_reported :
    (handlerWorker engSolverFail Transport.ok rEmpty).posts = [] ∧
    (handlerWorker engSolverFail Transport.ok rEmpty).retval
      = some (solverErrorMessage "convergence failed") ∧
    simulate engSolverFail Transport.ok (Except.ok rEmpty)
      = Response.result true none :=
  ⟨rfl, rfl, rfl⟩

/-- C5: each absent field is replaced by its default during normalization
(upper cutoff 4.2 V, lower cutoff 2.5 V, nominal capacity 8.6 A·h, control
current 5 A, duration 1 hour), and a present field's value is used
unchanged. -/
theorem c5_defaults_applied (r : RawRequest) :
    ((r.upperVoltage = none → (custom_parameters r).upperVoltageCutoff = 4.2) ∧
      ∀ v, r.upperVoltage = some v →
        (custom_parameters r).upperVoltageCutoff = v) ∧
    ((r.lowerVoltage = none → (custom_parameters r).lowerVoltageCutoff = 2.5) ∧
      ∀ v, r.lowerVoltage = some v →
        (custom_parameters r).lowerVoltageCutoff = v) ∧
    ((r.nominalCell = none → (custom_parameters r).nominalCellCapacity = 8.6) ∧
      ∀ v, r.nominalCell = some v →
        (custom_parameters r).nominalCellCapacity = v) ∧
    ((r.controlCurrent = none → (custom_parameters r).currentFunction = 5) ∧
      ∀ v, r.controlCurrent = some v →
        (custom_parameters r).currentFunction = v) ∧
    ((r.time = none → hoursOf r = 1) ∧
      ∀ v, r.time = some v → hoursOf r = v) := by
  refine ⟨⟨fun h => ?_, fun v h => ?_⟩, ⟨fun h => ?_, fun v h => ?_⟩,
    ⟨fun h => ?_, fun v h => ?_⟩, ⟨fun h => ?_, fun v h => ?_⟩,
    ⟨fun h => ?_, fun v h => ?_⟩⟩ <;> simp [custom_parameters, hoursOf, h]

/-- Witness for C5 at the all-absent request and an all-present request. -/
theorem c5_defaults_applied_witness :
    (custom_parameters rEmpty).upperVoltageCutoff = 4.2 ∧
    (custom_parameters rEmpty).lowerVoltageCutoff = 2.5 ∧
    (custom_parameters rEmpty).nominalCellCapacity = 8.6 ∧
    (custom_parameters rEmpty).currentFunction = 5 ∧
    hoursOf rEmpty = 1 ∧
    (custom_parameters rFull).upperVoltageCutoff = 4 ∧
    (custom_parameters rFull).lowerVoltageCutoff = 3 ∧
    (custom_parameters rFull).nominalCellCapacity = 9 ∧
    (custom_parameters rFull).currentFunction = 2 ∧
    hoursOf rFull = 2 :=
  ⟨(c5_defaults_applied rEmpty).1.1 rfl,
    (c5_defaults_applied rEmpty).2.1.1 rfl,
    (c5_defaults_applied rEmpty).2.2.1.1 rfl,
    (c5_defaults_applied rEmpty).2.2.2.1.1 rfl,
    (c5_defaults_applied rEmpty).2.2.2.2.1 rfl,
    (c5_defaults_applied rFull).1.2 4 rfl,
    (c5_defaults_applied rFull).2.1.2 3 rfl,
    (c5_defaults_applied rFull).2.2.1.2 9 rfl,
    (c5_defaults_applied rFull).2.2.2.1.2 2 rfl,
    (c5_defaults_applied rFull).2.2.2.2.2 2 rfl⟩

/-- C6: the duration handed to the engine's solve call equals the
request's duration in hours multiplied by 3600 — the single hours-to-
seconds conversion of line 46. -/
theorem c6_hours_to_seconds (e : Engine) (t : Transport) (r : RawRequest) :
    (handlerWorker e t r).solveArg = hoursOf r * 3600 := by
  unfold handlerWorker
  rw [simulate_battery_solveArg]
  ring

/-- C2 counterexample: at the spec §8 scenario request with
`upperVoltage: 2.0, lowerVoltage: 4.2` (so upper ≤ lower) the engine IS
invoked, with exactly those inverted cutoffs — the echo engine copies the
parameters it receives into its solution, and they appear verbatim in the
response — and no ValidationError is produced: the response is the
ordinary jobStarted acknowledgement carrying the engine's results. -/
theorem c2_invalid_cutoffs_reach_engine :
    (2 : ℚ) ≤ 4.2 ∧
    simulate engEcho Transport.ok (Except.ok rInverted)
      = Response.result true (some [⟨2, 4.2, 8.6, 5⟩]) :=
  ⟨by norm_num, rfl⟩

/-- C2 amended: the handler performs no validation — for every request
whose given upper cutoff is ≤ its given lower cutoff, the parameters are
forwarded unchanged to the engine; a solver failure the engine raises is
caught and mapped to the SolverError message in the worker's discarded
return value, and the synchronous response is still a jobStarted
acknowledgement, never a ValidationError. -/
theorem c2_amended_no_validation (e : Engine) (r : RawRequest) (u l : ℚ)
    (msg : String) (_hu : r.upperVoltage = some u)
    (_hl : r.lowerVoltage = some l) (_hle : u ≤ l)
    (he : e (custom_parameters r) (hoursOf r * 60 * 60)
      = Except.error (EngineError.solverError msg)) :
    (handlerWorker e Transport.ok r).solveParams = custom_parameters r ∧
    (handlerWorker e Transport.ok r).retval
      = some (solverErrorMessage msg) ∧
    simulate e Transport.ok (Except.ok r) = Response.result true none := by
  refine ⟨?_, ?_, ?_⟩ <;> simp [handlerWorker, simulate, simulate_battery, he]

/-- Witness for C2 amended at the inverted-cutoff request. -/
theorem c2_amended_no_validation_witness :
    (handlerWorker engSolverFail Transport.ok rInverted).solveParams
      = custom_parameters rInverted ∧
    (handlerWorker engSolverFail Transport.ok rInverted).retval
      = some (solverErrorMessage "convergence failed") ∧
    simulate engSolverFail Transport.ok (Except.ok rInverted)
      = Response.result true none :=
  c2_amended_no_validation engSolverFail rInverted 2 4.2 "convergence failed"
    rfl rfl (by norm_num) rfl

/-- C4 counterexample: after a transport failure of the callback POST
(connection refused) there is no retry: exactly one attempt is ever made
(refuting a retried delivery, which would make a second attempt), the
exception is swallowed into the worker's discarded return value, and the
result holder is never set — the outcome is dropped with no logging
effect present anywhere in the code. -/
theorem c4_no_retry_single_attempt :
    ¬ 2 ≤ (simulate_battery engOne (Transport.fail "connection refused")
        (custom_parameters rEmpty) 1 (some "J1")).posts.length ∧
    (simulate_battery engOne (Transport.fail "connection refused")
        (custom_parameters rEmpty) 1 (some "J1")).posts.length = 1 ∧
    (simulate_battery engOne (Transport.fail "connection refused")
        (custom_parameters rEmpty) 1 (some "J1")).retval
      = some "Error: connection refused" ∧
    (simulate_battery engOne (Transport.fail "connection refused")
        (custom_parameters rEmpty) 1 (some "J1")).resultHolder = none :=
  ⟨by decide, rfl, rfl, rfl⟩

/-- C4 amended: on a transport failure the worker makes exactly one POST
attempt, does not retry, and the failure is caught by the generic
exception handler: the error text lands in the discarded return value and
the result holder stays unset. -/
theorem c4_amended_single_post_attempt (e : Engine) (params : SimParams)
    (hours : ℚ) (id : Option String) (msg : String) (sol : Solution)
    (combined : List Sample)
    (he : e params (hours * 60 * 60) = Except.ok sol)
    (hc : combineData sol = Except.ok combined) :
    simulate_battery e (Transport.fail msg) params hours id
      = ⟨params, hours * 60 * 60, [⟨return_url, id, combined⟩], none,
        some ("Error: " ++ msg)⟩ := by
  simp [simulate_battery, he, hc]

/-- Witness for C4 amended at a concrete run with a refused connection. -/
theorem c4_amended_single_post_attempt_witness :
    simulate_battery engOne (Transport.fail "connection refused")
        (custom_parameters rEmpty) 1 none
      = ⟨custom_parameters rEmpty, 1 * 60 * 60,
        [⟨return_url, none, [⟨0, 4, 5, 0⟩]⟩], none,
        some ("Error: " ++ "connection refused")⟩ :=
  c4_amended_single_post_attempt engOne (custom_parameters rEmpty) 1 none
    "connection refused" ⟨[0], [4], [5], [0]⟩ [⟨0, 4, 5, 0⟩] rfl rfl

/-- C7: for every job whose engine call and series construction succeed,
the worker performs exactly one outbound POST, to the configured callback
URL, whose JSON body is exactly the id and the result series, and records
the series in the result holder. -/
theorem c7_success_callback_post (e : Engine) (params : SimParams)
    (hours : ℚ) (id : Option String) (sol : Solution)
    (combined : List Sample)
    (he : e params (hours * 60 * 60) = Except.ok sol)
    (hc : combineData sol = Except.ok combined) :
    (simulate_battery e Transport.ok params hours id).posts
      = [⟨return_url, id, combined⟩] ∧
    (simulate_battery e Transport.ok params hours id).resultHolder
      = some combined := by
  refine ⟨?_, ?_⟩ <;> simp [simulate_battery, he, hc]

/-- Witness for C7 at a concrete successful run. -/
theorem c7_success_callback_post_witness :
    (simulate_battery engOne Transport.ok (custom_parameters rEmpty) 1
        (some "J1")).posts
      = [⟨return_url, some "J1", [⟨0, 4, 5, 0⟩]⟩] ∧
    (simulate_battery engOne Transport.ok (custom_parameters rEmpty) 1
        (some "J1")).resultHolder = some [⟨0, 4, 5, 0⟩] :=
  c7_success_callback_post engOne (custom_parameters rEmpty) 1 (some "J1")
    ⟨[0], [4], [5], [0]⟩ [⟨0, 4, 5, 0⟩] rfl rfl

/-- C8: whenever the worker body raises any exception — witnessed by the
worker's caught error dict being present — the synchronous response is
still jobStarted true with null simulationResults: no error indication
reaches the HTTP caller. -/
theorem c8_exception_response_job_started (e : Engine) (t : Transport)
    (r : RawRequest) (msg : String)
    (h : (handlerWorker e t r).retval = some msg) :
    simulate e t (Except.ok r) = Response.result true none := by
  have h2 := simulate_battery_retval_or e t (custom_parameters r)
    (hoursOf r) r.id
  have h3 : (handlerWorker e t r).resultHolder = none := by
    unfold handlerWorker
    unfold handlerWorker at h
    rcases h2 with h2 | h2
    · rw [h2] at h
      exact Option.noConfusion h
    · exact h2
  show Response.result true (handlerWorker e t r).resultHolder
      = Response.result true none
  rw [h3]

/-- Witness for C8 at a request whose engine raises a solver failure. -/
theorem c8_exception_response_job_started_witness :
    (handlerWorker engSolverFail Transport.ok rFull).retval
      = some (solverErrorMessage "convergence failed") ∧
    simulate engSolverFail Transport.ok (Except.ok rFull)
      = Response.result true none :=
  ⟨rfl, c8_exception_response_job_started engSolverFail Transport.ok rFull
    (solverErrorMessage "convergence failed") rfl⟩

/-- C9: the handler is total over the embedded failure modes: every run
answers with one of the two JSON shapes — a failure while reading the body
is answered as the error JSON carrying that message, and an accepted body
is answered with the jobStarted acknowledgement; no exception propagates
to the HTTP caller. -/
theorem c9_handler_total (e : Engine) (t : Transport)
    (body : Except String RawRequest) :
    (∃ msg, body = Except.error msg ∧
      simulate e t body = Response.error msg) ∨
    (∃ r, body = Except.ok r ∧
      simulate e t body
        = Response.result true (handlerWorker e t r).resultHolder) := by
  cases body with
  | error msg => exact Or.inl ⟨msg, rfl, rfl⟩
  | ok r => exact Or.inr ⟨r, rfl, rfl⟩

/-- If every index of the window `[i, i+n)` is present in all four entry
arrays, the loop over that window succeeds and yields one sample per
index, holding the four arrays' entries at that index. -/
theorem combineFrom_ok (sol : Solution) (n : Nat) :
    ∀ (i : Nat), i + n ≤ sol.timeS.length → i + n ≤ sol.voltage.length →
      i + n ≤ sol.current.length → i + n ≤ sol.dcap.length →
      ∃ l, combineFrom sol i n = Except.ok l ∧ l.length = n ∧
        ∀ j, j < n →
          ∃ t v c d, sol.timeS[i + j]? = some t ∧
            sol.voltage[i + j]? = some v ∧ sol.current[i + j]? = some c ∧
            sol.dcap[i + j]? = some d ∧
            l[j]? = some (⟨t, v, c, d⟩ : Sample) := by
  induction n with
  | zero =>
    intro i _ _ _ _
    exact ⟨[], rfl, rfl, fun j hj => absurd hj (Nat.not_lt_zero j)⟩
  | succ n ih =>
    intro i ht hv hc hd
    have hit : i < sol.timeS.length := by omega
    have hiv : i < sol.voltage.length := by omega
    have hic : i < sol.current.length := by omega
    have hid : i < sol.dcap.length := by omega
    have e1 : sol.timeS[i]? = some sol.timeS[i] :=
      List.getElem?_eq_getElem hit
    have e2 : sol.voltage[i]? = some sol.voltage[i] :=
      List.getElem?_eq_getElem hiv
    have e3 : sol.current[i]? = some sol.current[i] :=
      List.getElem?_eq_getElem hic
    have e4 : sol.dcap[i]? = some sol.dcap[i] :=
      List.getElem?_eq_getElem hid
    have hdp : dataPoint sol i
        = Except.ok ⟨sol.timeS[i], sol.voltage[i], sol.current[i],
            sol.dcap[i]⟩ := by
      unfold dataPoint
      rw [e1, e2, e3, e4]
    obtain ⟨l, hl, hlen, hidx⟩ :=
      ih (i + 1) (by omega) (by omega) (by omega) (by omega)
    refine ⟨⟨sol.timeS[i], sol.voltage[i], sol.current[i], sol.dcap[i]⟩ :: l,
      ?_, ?_, ?_⟩
    · unfold combineFrom
      rw [hdp, hl]
    · simp [hlen]
    · intro j hj
      cases j with
      | zero =>
        exact ⟨sol.timeS[i], sol.voltage[i], sol.current[i], sol.dcap[i],
          by simp [e1], by simp [e2], by simp [e3],
          by simp [e4], by simp⟩
      | succ j =>
        obtain ⟨t, v, c, d, h1, h2, h3, h4, h5⟩ := hidx j (by omega)
        have harith : i + (j + 1) = i + 1 + j := by omega
        refine ⟨t, v, c, d, ?_, ?_, ?_, ?_, ?_⟩
        · rw [harith]; exact h1
        · rw [harith]; exact h2
        · rw [harith]; exact h3
        · rw [harith]; exact h4
        · simpa using h5

/-- C10: for every successful solve whose four entry arrays have equal
length (as the solver produces them), the built series has exactly one
sample per solver time step, and its i-th sample holds the i-th entries of
the time, voltage, current and discharge-capacity arrays, in the solver's
index order. -/
theorem c10_series_samples_indexwise (sol : Solution)
    (hv : sol.voltage.length = sol.timeS.length)
    (hc : sol.current.length = sol.timeS.length)
    (hd : sol.dcap.length = sol.timeS.length) :
    ∃ cd, combineData sol = Except.ok cd ∧ cd.length = sol.timeS.length ∧
      ∀ i, i < sol.timeS.length →
        ∃ t v c d, sol.timeS[i]? = some t ∧ sol.voltage[i]? = some v ∧
          sol.current[i]? = some c ∧ sol.dcap[i]? = some d ∧
          cd[i]? = some (⟨t, v, c, d⟩ : Sample) := by
  obtain ⟨l, hl, hlen, hidx⟩ := combineFrom_ok sol sol.timeS.length 0
    (by omega) (by omega) (by omega) (by omega)
  refine ⟨l, hl, hlen, fun i hi => ?_⟩
  obtain ⟨t, v, c, d, h1, h2, h3, h4, h5⟩ := hidx i hi
  exact ⟨t, v, c, d, by simpa using h1, by simpa using h2, by simpa using h3,
    by simpa using h4, h5⟩

/-- A concrete two-step solution used by the C10 witness. -/
def solTwo : Solution := ⟨[0, 1], [4, 3], [5, 5], [0, 1]⟩

/-- Witness for C10 at a concrete two-step solution. -/
theorem c10_series_samples_indexwise_witness :
    ∃ cd, combineData solTwo = Except.ok cd ∧
      cd.length = solTwo.timeS.length ∧
      ∀ i, i < solTwo.timeS.length →
        ∃ t v c d, solTwo.timeS[i]? = some t ∧ solTwo.voltage[i]? = some v ∧
          solTwo.current[i]? = some c ∧ solTwo.dcap[i]? = some d ∧
          cd[i]? = some (⟨t, v, c, d⟩ : Sample) :=
  c10_series_samples_indexwise solTwo rfl rfl rfl

end BatterySim
